import Mathlib

/-!
Shallow embedding of `src/overlay/FlowControlCapacity.cpp` (stellar-core overlay
flow-control capacity accounting) and proofs about its claims.

Modelling conventions:
 - `uint64_t` values are `Nat` with explicit `% W` (`W = 2 ^ 64`) at every
   addition site of the source (`+=`); subtractions in the source are guarded
   by `releaseAssert`s or explicit comparisons, so they never underflow and are
   modelled by guarded `Nat` subtraction.
 - A `releaseAssert` firing is a fatal abort; fallible operations return
   `Option`, with `none` meaning some `releaseAssert` fired on that path.
 - A `StellarMessage` is modelled abstractly by the observations the code
   makes of it: its flood classification (`OverlayManager::isFloodMessage`),
   its type tag as far as the credit-grant asserts care, its credit-grant
   payloads, and its XDR serialized sizes.
-/

namespace StellarOverlay

/-- Modulus of `uint64_t` arithmetic. -/
def W : Nat := 2 ^ 64

/-- Message type tags as far as this file observes them: the credit-grant
asserts in `releaseOutboundCapacity` only distinguish `SEND_MORE`,
`SEND_MORE_EXTENDED` and everything else. -/
inductive MessageType where
  | SEND_MORE
  | SEND_MORE_EXTENDED
  | OTHER
deriving DecidableEq

/-- Abstract view of a `StellarMessage`: exactly the observations
`FlowControlCapacity.cpp` makes of a message.
`numMessages` is modelled from the spec: `FlowControl::getNumMessages` (not in
src) decodes the plain message count carried by a count-based credit-grant
message. `numBytes` is `msg.sendMoreExtendedMessage().numBytes`.
`xdrFullSize` is `xdr::xdr_size(msg)` and `xdrTypeSize` is
`xdr::xdr_size(msg.type())`, both opaque nonnegative sizes. -/
structure StellarMessage where
  isFlood : Bool
  msgType : MessageType
  numMessages : Nat
  numBytes : Nat
  xdrFullSize : Nat
  xdrTypeSize : Nat
deriving DecidableEq

/-- `FlowControlCapacity::ReadingCapacity`: a flood budget and an optional
total budget (`std::optional<uint64_t>`; absent means unbounded). -/
structure ReadingCapacity where
  mFloodCapacity : Nat
  mTotalCapacity : Option Nat
deriving DecidableEq

/-- The configuration fields this file reads: the two count-based ceilings and
the local overlay protocol version. -/
structure Config where
  PEER_FLOOD_READING_CAPACITY : Nat
  PEER_READING_CAPACITY : Nat
  OVERLAY_PROTOCOL_VERSION : Nat
deriving DecidableEq

/-- Modelled from the spec: `Peer::FIRST_VERSION_UPDATED_FLOW_CONTROL_ACCOUNTING`
(declared outside src) is the fixed accounting-scheme-change version threshold.
Its concrete value is immaterial to every theorem below (they quantify
relative to it); only positivity is relied upon. -/
def FIRST_VERSION_UPDATED_FLOW_CONTROL_ACCOUNTING : Nat := 28

namespace FlowControlCapacity

/-- `FlowControlCapacity::checkCapacityInvariants` (lines 118-134): asserts
the flood budget is within its limit and the optional total budget is present
exactly when its limit is, and within it. Returns `false` when one of the
`releaseAssert`s would fire. -/
def checkCapacityInvariants (limits cap : ReadingCapacity) : Bool :=
  decide (cap.mFloodCapacity ≤ limits.mFloodCapacity) &&
    match limits.mTotalCapacity, cap.mTotalCapacity with
    | some lt, some ct => decide (ct ≤ lt)
    | some _, none => false
    | none, some _ => false
    | none, none => true

/-- `FlowControlCapacity::lockLocalCapacity` (lines 147-176), generic in the
strategy data: `limits` is `getCapacityLimits()`, `msgResources?` is
`getMsgResourceCount(msg)` (`none` when that virtual call fatally asserts),
`isFlood` is `OverlayManager::isFloodMessage(msg)`. The invariant check runs
first; a present total capacity is deducted under a fatal
`releaseAssert(total >= cost)`; then flood admission is decided. -/
def lockLocalCapacity (limits : ReadingCapacity) (msgResources? : Option Nat)
    (isFlood : Bool) (cap : ReadingCapacity) : Option (ReadingCapacity × Bool) :=
  if checkCapacityInvariants limits cap then
    match msgResources? with
    | none => none
    | some msgResources =>
      match
        (match cap.mTotalCapacity with
          | some t =>
            if msgResources ≤ t then some (some (t - msgResources)) else none
          | none => some none) with
      | none => none
      | some newTotal =>
        if isFlood then
          if cap.mFloodCapacity < msgResources then
            some (⟨cap.mFloodCapacity, newTotal⟩, false)
          else
            some (⟨cap.mFloodCapacity - msgResources, newTotal⟩, true)
        else
          some (⟨cap.mFloodCapacity, newTotal⟩, true)
  else none

/-- `FlowControlCapacity::releaseLocalCapacity` (lines 178-202), generic in the
strategy data: adds the cost back to a present total capacity and, for flood
messages, to the flood capacity (both `uint64_t` `+=`, hence `% W`), returns
the released flood amount, and re-checks the capacity invariants (fatal on
violation) before returning. -/
def releaseLocalCapacity (limits : ReadingCapacity) (resourcesFreed? : Option Nat)
    (isFlood : Bool) (cap : ReadingCapacity) : Option (ReadingCapacity × Nat) :=
  match resourcesFreed? with
  | none => none
  | some resourcesFreed =>
    let newTotal : Option Nat :=
      match cap.mTotalCapacity with
      | some t => some ((t + resourcesFreed) % W)
      | none => none
    let cap2 : ReadingCapacity :=
      ⟨if isFlood then (cap.mFloodCapacity + resourcesFreed) % W
        else cap.mFloodCapacity, newTotal⟩
    let releasedFloodCapacity : Nat := if isFlood then resourcesFreed else 0
    if checkCapacityInvariants limits cap2 then some (cap2, releasedFloodCapacity)
    else none

/-- `FlowControlCapacity::hasOutboundCapacity` (lines 204-209): the outbound
counter covers the message cost. `none` when the cost computation fatally
asserts. -/
def hasOutboundCapacity (msgResources? : Option Nat) (mOutboundCapacity : Nat) :
    Option Bool :=
  match msgResources? with
  | none => none
  | some c => some (decide (c ≤ mOutboundCapacity))

/-- `FlowControlCapacity::lockOutboundCapacity` (lines 136-145): no-op for
non-flood messages (the cost is never computed there); for flood messages,
fatally asserts `hasOutboundCapacity` and deducts the cost. -/
def lockOutboundCapacity (msgResources? : Option Nat) (isFlood : Bool)
    (mOutboundCapacity : Nat) : Option Nat :=
  if isFlood then
    match msgResources? with
    | none => none
    | some c =>
      if c ≤ mOutboundCapacity then some (mOutboundCapacity - c) else none
  else some mOutboundCapacity

/-- `FlowControlCapacity::msgBodySize` (lines 211-230): when both the remote
and the local overlay versions are at or above the accounting threshold, the
cost is the serialized size minus the size of the type discriminator
(the discriminator is serialized inside the message, so the `size_t`
subtraction never underflows and agrees with truncated `Nat` subtraction);
otherwise it is the full serialized size. -/
def msgBodySize (msg : StellarMessage) (remoteVersion localVersion : Nat) : Nat :=
  if FIRST_VERSION_UPDATED_FLOW_CONTROL_ACCOUNTING ≤ remoteVersion ∧
      FIRST_VERSION_UPDATED_FLOW_CONTROL_ACCOUNTING ≤ localVersion then
    msg.xdrFullSize - msg.xdrTypeSize
  else
    msg.xdrFullSize

end FlowControlCapacity

namespace FlowControlMessageCapacity

/-- `FlowControlMessageCapacity::getMsgResourceCount` (lines 22-27): each
message takes one unit of capacity. -/
def getMsgResourceCount (_msg : StellarMessage) : Nat := 1

/-- `FlowControlMessageCapacity::getCapacityLimits` (lines 29-35): both
ceilings are present, read from configuration. -/
def getCapacityLimits (cfg : Config) : ReadingCapacity :=
  ⟨cfg.PEER_FLOOD_READING_CAPACITY, some cfg.PEER_READING_CAPACITY⟩

/-- Constructor (lines 15-20): `mCapacity = getCapacityLimits()`. -/
def initialCapacity (cfg : Config) : ReadingCapacity :=
  getCapacityLimits cfg

/-- Base-class `lockLocalCapacity` instantiated with the count strategy. -/
def lockLocalCapacity (cfg : Config) (msg : StellarMessage)
    (cap : ReadingCapacity) : Option (ReadingCapacity × Bool) :=
  FlowControlCapacity.lockLocalCapacity (getCapacityLimits cfg)
    (some (getMsgResourceCount msg)) msg.isFlood cap

/-- Base-class `releaseLocalCapacity` instantiated with the count strategy. -/
def releaseLocalCapacity (cfg : Config) (msg : StellarMessage)
    (cap : ReadingCapacity) : Option (ReadingCapacity × Nat) :=
  FlowControlCapacity.releaseLocalCapacity (getCapacityLimits cfg)
    (some (getMsgResourceCount msg)) msg.isFlood cap

/-- `FlowControlMessageCapacity::releaseOutboundCapacity` (lines 37-49):
fatally asserts the message is `SEND_MORE` or `SEND_MORE_EXTENDED`, then adds
the granted message count to the outbound counter (`uint64_t` `+=`). The
`hasOutboundCapacity` call in the source only guards a debug log and cannot
fail for the count strategy (its cost is the constant 1). -/
def releaseOutboundCapacity (msg : StellarMessage) (mOutboundCapacity : Nat) :
    Option Nat :=
  if msg.msgType = MessageType.SEND_MORE ∨
      msg.msgType = MessageType.SEND_MORE_EXTENDED then
    some ((mOutboundCapacity + msg.numMessages) % W)
  else none

/-- `FlowControlMessageCapacity::canRead` (lines 51-57): fatally asserts the
total capacity is present and returns whether it is strictly positive. -/
def canRead (cap : ReadingCapacity) : Option Bool :=
  match cap.mTotalCapacity with
  | some t => some (decide (0 < t))
  | none => none

end FlowControlMessageCapacity

namespace FlowControlByteCapacity

/-- Mutable state of a `FlowControlByteCapacity`: live capacity, outbound
counter, its own (raisable) limits and the remote overlay version recorded at
construction. -/
structure State where
  mCapacity : ReadingCapacity
  mOutboundCapacity : Nat
  mCapacityLimits : ReadingCapacity
  mRemoteOverlayVersion : Nat
deriving DecidableEq

/-- Constructor (lines 59-69): limits are the configured flood byte ceiling
with no total ceiling (`byteFloodLimit` stands for
`getFlowControlBytesConfig().mTotal`, read from the overlay manager outside
src); `mCapacity` starts equal to the limits, the outbound counter at zero. -/
def init (byteFloodLimit : Nat) (remoteVersion : Nat) : State :=
  ⟨⟨byteFloodLimit, none⟩, 0, ⟨byteFloodLimit, none⟩, remoteVersion⟩

/-- `FlowControlByteCapacity::getMsgResourceCount` (lines 77-83): fatally
asserts the recorded remote version is nonzero, then computes `msgBodySize`
against the local `OVERLAY_PROTOCOL_VERSION`. -/
def getMsgResourceCount (st : State) (cfg : Config) (msg : StellarMessage) :
    Option Nat :=
  if st.mRemoteOverlayVersion = 0 then none
  else
    some (FlowControlCapacity.msgBodySize msg st.mRemoteOverlayVersion
      cfg.OVERLAY_PROTOCOL_VERSION)

/-- Base-class `lockLocalCapacity` instantiated with the byte strategy
(limits are the instance field `mCapacityLimits`). -/
def lockLocalCapacity (st : State) (cfg : Config) (msg : StellarMessage) :
    Option (State × Bool) :=
  (FlowControlCapacity.lockLocalCapacity st.mCapacityLimits
      (getMsgResourceCount st cfg msg) msg.isFlood st.mCapacity).map
    (fun p => ({ st with mCapacity := p.1 }, p.2))

/-- Base-class `releaseLocalCapacity` instantiated with the byte strategy. -/
def releaseLocalCapacity (st : State) (cfg : Config) (msg : StellarMessage) :
    Option (State × Nat) :=
  (FlowControlCapacity.releaseLocalCapacity st.mCapacityLimits
      (getMsgResourceCount st cfg msg) msg.isFlood st.mCapacity).map
    (fun p => ({ st with mCapacity := p.1 }, p.2))

/-- Base-class `hasOutboundCapacity` instantiated with the byte strategy. -/
def hasOutboundCapacity (st : State) (cfg : Config) (msg : StellarMessage) :
    Option Bool :=
  FlowControlCapacity.hasOutboundCapacity (getMsgResourceCount st cfg msg)
    st.mOutboundCapacity

/-- Base-class `lockOutboundCapacity` instantiated with the byte strategy. -/
def lockOutboundCapacity (st : State) (cfg : Config) (msg : StellarMessage) :
    Option State :=
  (FlowControlCapacity.lockOutboundCapacity (getMsgResourceCount st cfg msg)
      msg.isFlood st.mOutboundCapacity).map
    (fun o => { st with mOutboundCapacity := o })

/-- `FlowControlByteCapacity::releaseOutboundCapacity` (lines 85-97): fatally
asserts the message is `SEND_MORE_EXTENDED`; the `hasOutboundCapacity` call
guarding the debug log computes the credit message's own cost, so its fatal
assert (zero remote version) propagates; then adds `numBytes` to the outbound
counter (`uint64_t` `+=`). -/
def releaseOutboundCapacity (st : State) (cfg : Config) (msg : StellarMessage) :
    Option State :=
  if msg.msgType = MessageType.SEND_MORE_EXTENDED then
    match hasOutboundCapacity st cfg msg with
    | none => none
    | some _ =>
      some { st with mOutboundCapacity := (st.mOutboundCapacity + msg.numBytes) % W }
  else none

/-- `FlowControlByteCapacity::canRead` (lines 99-104): fatally asserts the
total capacity is absent and returns `true`. -/
def canRead (cap : ReadingCapacity) : Option Bool :=
  match cap.mTotalCapacity with
  | none => some true
  | some _ => none

/-- `FlowControlByteCapacity::handleTxSizeIncrease` (lines 106-111): raises
both the live flood capacity and the flood ceiling by `increase`
(`uint64_t` `+=`). -/
def handleTxSizeIncrease (st : State) (increase : Nat) : State :=
  { st with
    mCapacity := ⟨(st.mCapacity.mFloodCapacity + increase) % W,
      st.mCapacity.mTotalCapacity⟩,
    mCapacityLimits := ⟨(st.mCapacityLimits.mFloodCapacity + increase) % W,
      st.mCapacityLimits.mTotalCapacity⟩ }

end FlowControlByteCapacity

/-! Concrete fixtures used by scenario claims. -/

/-- Count-based configuration of the C1/C2 scenarios: flood limit 5, total
limit 10 (the local overlay version is irrelevant to the count strategy). -/
def cfg5_10 : Config := ⟨5, 10, 28⟩

/-- A flood message; the count strategy ignores every other field. -/
def floodMsg : StellarMessage := ⟨true, MessageType.OTHER, 0, 0, 0, 0⟩

/-- A flood message serializing to 104 bytes, 4 of which are the type
discriminator. -/
def byteMsg104 : StellarMessage := ⟨true, MessageType.OTHER, 0, 0, 104, 4⟩

/-! Helper lemmas shared by several proofs. -/

theorem checkCapacityInvariants_eq_true_iff (limits cap : ReadingCapacity) :
    FlowControlCapacity.checkCapacityInvariants limits cap = true ↔
      cap.mFloodCapacity ≤ limits.mFloodCapacity ∧
        ((∃ l t, limits.mTotalCapacity = some l ∧ cap.mTotalCapacity = some t ∧
            t ≤ l) ∨
          (limits.mTotalCapacity = none ∧ cap.mTotalCapacity = none)) := by
  obtain ⟨lf, lt?⟩ := limits
  obtain ⟨fc, tc?⟩ := cap
  cases lt? <;> cases tc? <;>
    simp [FlowControlCapacity.checkCapacityInvariants]


/-!
Claim C3. Properly paired lock/release sequences on a count-based ledger keep
both capacities within `[0, limit]`. "Properly paired" is modelled by
`ReachCount`: a release matches a prior *successful* lock of the same
flood/non-flood class (in the surrounding system a refused flood admission
drops the peer, so refused locks are never released). Fatal asserts terminate
a trace, so reachable states are exactly the intermediate points of
non-aborted executions. Lower bounds are automatic in the `Nat` model; they
hold in the source because every deduction is guarded by a fatal assert or an
explicit comparison.
-/

inductive ReachCount (cfg : Config) : ReadingCapacity → Nat → Nat → Prop where
  | init : ReachCount cfg (FlowControlMessageCapacity.initialCapacity cfg) 0 0
  | lock (cap cap2 : ReadingCapacity) (oF oN : Nat) (msg : StellarMessage)
      (ok : Bool) :
      ReachCount cfg cap oF oN →
      FlowControlMessageCapacity.lockLocalCapacity cfg msg cap = some (cap2, ok) →
      ReachCount cfg cap2 (oF + (if msg.isFlood && ok then 1 else 0))
        (oN + (if msg.isFlood then 0 else 1))
  | releaseFlood (cap cap2 : ReadingCapacity) (oF oN : Nat)
      (msg : StellarMessage) (r : Nat) :
      ReachCount cfg cap (oF + 1) oN →
      msg.isFlood = true →
      FlowControlMessageCapacity.releaseLocalCapacity cfg msg cap
        = some (cap2, r) →
      ReachCount cfg cap2 oF oN
  | releaseNonFlood (cap cap2 : ReadingCapacity) (oF oN : Nat)
      (msg : StellarMessage) (r : Nat) :
      ReachCount cfg cap oF (oN + 1) →
      msg.isFlood = false →
      FlowControlMessageCapacity.releaseLocalCapacity cfg msg cap
        = some (cap2, r) →
      ReachCount cfg cap2 oF oN

theorem reachCount_ghost_invariant (cfg : Config)
    (hF : cfg.PEER_FLOOD_READING_CAPACITY < W)
    (hT : cfg.PEER_READING_CAPACITY < W)
    (cap : ReadingCapacity) (oF oN : Nat)
    (h : ReachCount cfg cap oF oN) :
    cap.mFloodCapacity + oF = cfg.PEER_FLOOD_READING_CAPACITY ∧
    ∃ t, cap.mTotalCapacity = some t ∧
      t + oF + oN ≤ cfg.PEER_READING_CAPACITY := by
  induction h with
  | init =>
    exact ⟨rfl, cfg.PEER_READING_CAPACITY, rfl, by omega⟩
  | lock cap cap2 oF oN msg ok hreach hstep ih =>
    obtain ⟨hflood, t, htot, hle⟩ := ih
    obtain ⟨fc, tc?⟩ := cap
    simp only at hflood htot
    subst htot
    simp only [FlowControlMessageCapacity.lockLocalCapacity,
      FlowControlMessageCapacity.getMsgResourceCount,
      FlowControlMessageCapacity.getCapacityLimits,
      FlowControlCapacity.lockLocalCapacity] at hstep
    rw [if_pos ?chk] at hstep
    case chk =>
      rw [checkCapacityInvariants_eq_true_iff]
      constructor
      · simp
        omega
      · exact Or.inl ⟨cfg.PEER_READING_CAPACITY, t, rfl, rfl, by omega⟩
    by_cases h1 : 1 ≤ t
    case neg => rw [if_neg h1] at hstep; simp at hstep
    rw [if_pos h1] at hstep
    cases hmf : msg.isFlood with
    | false =>
      rw [hmf] at hstep
      simp only [Bool.false_eq_true, if_false, Option.some.injEq,
        Prod.mk.injEq] at hstep
      obtain ⟨h2, h3⟩ := hstep
      subst h2
      subst h3
      refine ⟨?_, t - 1, rfl, ?_⟩ <;> simp [hmf] <;> omega
    | true =>
      rw [hmf] at hstep
      simp only [if_true] at hstep
      by_cases hfc : fc < 1
      case pos =>
        rw [if_pos hfc] at hstep
        simp only [Option.some.injEq, Prod.mk.injEq] at hstep
        obtain ⟨h2, h3⟩ := hstep
        subst h2
        subst h3
        refine ⟨?_, t - 1, rfl, ?_⟩ <;> simp [hmf] <;> omega
      case neg =>
        rw [if_neg hfc] at hstep
        simp only [Option.some.injEq, Prod.mk.injEq] at hstep
        obtain ⟨h2, h3⟩ := hstep
        subst h2
        subst h3
        refine ⟨?_, t - 1, rfl, ?_⟩ <;> simp [hmf] <;> omega
  | releaseFlood cap cap2 oF oN msg r hreach hmf hstep ih =>
    obtain ⟨hflood, t, htot, hle⟩ := ih
    obtain ⟨fc, tc?⟩ := cap
    simp only at hflood htot
    subst htot
    have hfc1 : fc + 1 < W := by omega
    have ht1 : t + 1 < W := by omega
    simp only [FlowControlMessageCapacity.releaseLocalCapacity,
      FlowControlMessageCapacity.getMsgResourceCount,
      FlowControlMessageCapacity.getCapacityLimits,
      FlowControlCapacity.releaseLocalCapacity, hmf, if_true,
      Nat.mod_eq_of_lt hfc1, Nat.mod_eq_of_lt ht1] at hstep
    rw [if_pos ?chk2] at hstep
    case chk2 =>
      rw [checkCapacityInvariants_eq_true_iff]
      constructor
      · simp
        omega
      · exact Or.inl ⟨cfg.PEER_READING_CAPACITY, t + 1, rfl, rfl, by omega⟩
    simp only [Option.some.injEq, Prod.mk.injEq] at hstep
    obtain ⟨h2, -⟩ := hstep
    subst h2
    constructor
    · show fc + 1 + oF = cfg.PEER_FLOOD_READING_CAPACITY
      omega
    · exact ⟨t + 1, rfl, by omega⟩
  | releaseNonFlood cap cap2 oF oN msg r hreach hmf hstep ih =>
    obtain ⟨hflood, t, htot, hle⟩ := ih
    obtain ⟨fc, tc?⟩ := cap
    simp only at hflood htot
    subst htot
    have ht1 : t + 1 < W := by omega
    simp only [FlowControlMessageCapacity.releaseLocalCapacity,
      FlowControlMessageCapacity.getMsgResourceCount,
      FlowControlMessageCapacity.getCapacityLimits,
      FlowControlCapacity.releaseLocalCapacity, hmf, Bool.false_eq_true,
      if_false, Nat.mod_eq_of_lt ht1] at hstep
    rw [if_pos ?chk3] at hstep
    case chk3 =>
      rw [checkCapacityInvariants_eq_true_iff]
      constructor
      · simp
        omega
      · exact Or.inl ⟨cfg.PEER_READING_CAPACITY, t + 1, rfl, rfl, by omega⟩
    simp only [Option.some.injEq, Prod.mk.injEq] at hstep
    obtain ⟨h2, -⟩ := hstep
    subst h2
    constructor
    · show fc + oF = cfg.PEER_FLOOD_READING_CAPACITY
      omega
    · exact ⟨t + 1, rfl, by omega⟩

/-- C3: on a count-based ledger, along every properly paired lock/release
trace from the freshly initialized state, every reachable state keeps
`flood_capacity ≤ flood_limit` and `total_capacity` present with
`total_capacity ≤ total_limit` (lower bounds are inherent to `Nat`). The `< W`
hypotheses say the configured ceilings fit in `uint64_t`. -/
theorem c3_count_ledger_capacity_bounds (cfg : Config)
    (hF : cfg.PEER_FLOOD_READING_CAPACITY < W)
    (hT : cfg.PEER_READING_CAPACITY < W)
    (cap : ReadingCapacity) (oF oN : Nat)
    (h : ReachCount cfg cap oF oN) :
    cap.mFloodCapacity ≤ cfg.PEER_FLOOD_READING_CAPACITY ∧
    ∃ t, cap.mTotalCapacity = some t ∧ t ≤ cfg.PEER_READING_CAPACITY := by
  obtain ⟨h1, t, h2, h3⟩ := reachCount_ghost_invariant cfg hF hT cap oF oN h
  exact ⟨by omega, t, h2, by omega⟩

/-- C3 (witness): the bounds at the state reached on the flood-5/total-10
ledger after one successful flood lock. -/
theorem c3_bounds_witness :
    (⟨4, some 9⟩ : ReadingCapacity).mFloodCapacity ≤
      cfg5_10.PEER_FLOOD_READING_CAPACITY ∧
    ∃ t, (⟨4, some 9⟩ : ReadingCapacity).mTotalCapacity = some t ∧
      t ≤ cfg5_10.PEER_READING_CAPACITY :=
  c3_count_ledger_capacity_bounds cfg5_10 (by decide) (by decide)
    ⟨4, some 9⟩ 1 0
    (ReachCount.lock (FlowControlMessageCapacity.initialCapacity cfg5_10)
      ⟨4, some 9⟩ 0 0 floodMsg true ReachCount.init (by decide))

/-!
Claim C1. The spec scenario asserts that a sixth flood lock on a depleted
count-based ledger leaves `total_capacity` untouched. In the source, the total
deduction happens before the flood-admission check and is not rolled back on
refusal, so the refused sixth lock drains total from 5 to 4.
-/

/-- C1 (counterexample): on the count-based ledger with flood limit 5 and
total limit 10, in the state reached after five successful flood locks
(`flood = 0`, `total = 5`), a sixth flood lock returns `false` but leaves
`total_capacity = 4`, not 5 as the claim states. -/
theorem c1_counterexample :
    (FlowControlMessageCapacity.lockLocalCapacity cfg5_10 floodMsg
        ⟨0, some 5⟩).map (fun p => (p.1.mFloodCapacity, p.1.mTotalCapacity, p.2))
      = some (0, some 4, false) ∧
    ¬ ((FlowControlMessageCapacity.lockLocalCapacity cfg5_10 floodMsg
        ⟨0, some 5⟩).map (fun p => p.1.mTotalCapacity) = some (some 5)) := by
  decide

/-- C1 (amended): with flood limit 5 and total limit 10, five flood locks
succeed, stepping the ledger to `flood = 0`, `total = 5`; the sixth flood lock
returns `false`, leaves `flood_capacity` at 0, and deducts `total_capacity`
to 4 (total is deducted before the flood check and not rolled back on
refusal). -/
theorem c1_flood_refusal_scenario :
    FlowControlMessageCapacity.lockLocalCapacity cfg5_10 floodMsg ⟨5, some 10⟩
      = some (⟨4, some 9⟩, true) ∧
    FlowControlMessageCapacity.lockLocalCapacity cfg5_10 floodMsg ⟨4, some 9⟩
      = some (⟨3, some 8⟩, true) ∧
    FlowControlMessageCapacity.lockLocalCapacity cfg5_10 floodMsg ⟨3, some 8⟩
      = some (⟨2, some 7⟩, true) ∧
    FlowControlMessageCapacity.lockLocalCapacity cfg5_10 floodMsg ⟨2, some 7⟩
      = some (⟨1, some 6⟩, true) ∧
    FlowControlMessageCapacity.lockLocalCapacity cfg5_10 floodMsg ⟨1, some 6⟩
      = some (⟨0, some 5⟩, true) ∧
    FlowControlMessageCapacity.lockLocalCapacity cfg5_10 floodMsg ⟨0, some 5⟩
      = some (⟨0, some 4⟩, false) := by
  decide

/-!
Claim C2. The round-trip law fails as stated: when a flood lock is refused,
the lock still deducts total capacity, and a subsequent release adds the cost
back to *both* budgets, leaving flood capacity above its pre-lock value. It
holds whenever the lock succeeds (returns `true`).
-/

/-- C2 (counterexample): state `flood = 0`, `total = 5` satisfies the capacity
invariants for limits `⟨5, some 10⟩`; locking a flood message returns `false`
(state `⟨0, some 4⟩`) and the immediate release then yields `⟨1, some 5⟩`,
which differs from the pre-lock state `⟨0, some 5⟩`. -/
theorem c2_counterexample :
    FlowControlCapacity.checkCapacityInvariants
      (FlowControlMessageCapacity.getCapacityLimits cfg5_10) ⟨0, some 5⟩ = true ∧
    FlowControlMessageCapacity.lockLocalCapacity cfg5_10 floodMsg ⟨0, some 5⟩
      = some (⟨0, some 4⟩, false) ∧
    FlowControlMessageCapacity.releaseLocalCapacity cfg5_10 floodMsg ⟨0, some 4⟩
      = some (⟨1, some 5⟩, 1) ∧
    (⟨1, some 5⟩ : ReadingCapacity) ≠ ⟨0, some 5⟩ := by
  decide

/-- C2 (amended): for every message cost, flood classification and ledger
state, when `lockLocalCapacity` *succeeds* (returns `true`, no fatal assert),
an immediate `releaseLocalCapacity` of the same message restores both
`flood_capacity` and `total_capacity` to their pre-lock values. The two `< W`
hypotheses say the configured ceilings fit in `uint64_t`. -/
theorem c2_lock_release_roundtrip (limits cap cap2 : ReadingCapacity) (c : Nat)
    (f : Bool) (hFW : limits.mFloodCapacity < W)
    (hTW : ∀ l, limits.mTotalCapacity = some l → l < W)
    (h : FlowControlCapacity.lockLocalCapacity limits (some c) f cap
      = some (cap2, true)) :
    (FlowControlCapacity.releaseLocalCapacity limits (some c) f cap2).map
      Prod.fst = some cap := by
  obtain ⟨lf, lt?⟩ := limits
  obtain ⟨fc, tc?⟩ := cap
  simp only [FlowControlCapacity.lockLocalCapacity] at h
  by_cases hchk :
      FlowControlCapacity.checkCapacityInvariants ⟨lf, lt?⟩ ⟨fc, tc?⟩ = true
  case neg => simp [hchk] at h
  rw [if_pos hchk] at h
  rw [checkCapacityInvariants_eq_true_iff] at hchk
  obtain ⟨hfl, hrest⟩ := hchk
  simp only at hfl hFW
  rcases hrest with ⟨l, t, hl, ht, hle⟩ | ⟨hl, ht⟩ <;>
    simp only at hl ht <;> subst hl <;> subst ht
  · -- total capacity present
    have hlW : l < W := hTW l rfl
    have htW : t < W := lt_of_le_of_lt hle hlW
    simp only at h
    by_cases hct : c ≤ t
    case neg => simp [hct] at h
    rw [if_pos hct] at h
    cases f with
    | false =>
      simp only [Bool.false_eq_true, if_false, Option.some.injEq,
        Prod.mk.injEq] at h
      obtain ⟨h2, -⟩ := h
      subst h2
      simp only [FlowControlCapacity.releaseLocalCapacity, Bool.false_eq_true,
        if_false, Nat.sub_add_cancel hct, Nat.mod_eq_of_lt htW]
      rw [if_pos ?inv]
      case inv =>
        rw [checkCapacityInvariants_eq_true_iff]
        exact ⟨hfl, Or.inl ⟨l, t, rfl, rfl, hle⟩⟩
      rfl
    | true =>
      simp only [if_true] at h
      by_cases hfc : fc < c
      case pos => simp [hfc] at h
      rw [if_neg hfc] at h
      simp only [Option.some.injEq, Prod.mk.injEq] at h
      obtain ⟨h2, -⟩ := h
      subst h2
      have hcf : c ≤ fc := Nat.le_of_not_lt hfc
      have hfcW : fc < W := lt_of_le_of_lt hfl hFW
      simp only [FlowControlCapacity.releaseLocalCapacity, if_true,
        Nat.sub_add_cancel hct, Nat.sub_add_cancel hcf,
        Nat.mod_eq_of_lt htW, Nat.mod_eq_of_lt hfcW]
      rw [if_pos ?inv2]
      case inv2 =>
        rw [checkCapacityInvariants_eq_true_iff]
        exact ⟨hfl, Or.inl ⟨l, t, rfl, rfl, hle⟩⟩
      rfl
  · -- total capacity absent
    simp only at h
    cases f with
    | false =>
      simp only [Bool.false_eq_true, if_false, Option.some.injEq,
        Prod.mk.injEq] at h
      obtain ⟨h2, -⟩ := h
      subst h2
      simp only [FlowControlCapacity.releaseLocalCapacity, Bool.false_eq_true,
        if_false]
      rw [if_pos ?inv3]
      case inv3 =>
        rw [checkCapacityInvariants_eq_true_iff]
        exact ⟨hfl, Or.inr ⟨rfl, rfl⟩⟩
      rfl
    | true =>
      simp only [if_true] at h
      by_cases hfc : fc < c
      case pos => simp [hfc] at h
      rw [if_neg hfc] at h
      simp only [Option.some.injEq, Prod.mk.injEq] at h
      obtain ⟨h2, -⟩ := h
      subst h2
      have hcf : c ≤ fc := Nat.le_of_not_lt hfc
      have hfcW : fc < W := lt_of_le_of_lt hfl hFW
      simp only [FlowControlCapacity.releaseLocalCapacity, if_true,
        Nat.sub_add_cancel hcf, Nat.mod_eq_of_lt hfcW]
      rw [if_pos ?inv4]
      case inv4 =>
        rw [checkCapacityInvariants_eq_true_iff]
        exact ⟨hfl, Or.inr ⟨rfl, rfl⟩⟩
      rfl

/-- C2 (witness): the round-trip law applied on the count ledger with limits
`⟨5, some 10⟩` to a successful flood lock from the full state. -/
theorem c2_roundtrip_witness :
    (FlowControlCapacity.releaseLocalCapacity ⟨5, some 10⟩ (some 1) true
      ⟨4, some 9⟩).map Prod.fst = some ⟨5, some 10⟩ :=
  c2_lock_release_roundtrip ⟨5, some 10⟩ ⟨5, some 10⟩ ⟨4, some 9⟩ 1 true
    (by decide)
    (by
      intro l hl
      obtain rfl : (10 : Nat) = l := Option.some.inj hl
      decide)
    (by decide)

/-- C4: under the byte strategy's recorded-nonzero-remote-version precondition
(see C9), the resource cost of every message is `msgBodySize`: serialized size
minus the type-discriminator size when both the recorded remote version and
the local version are at or above the accounting-scheme threshold, and the
full serialized size when either side is below it. -/
theorem c4_byte_resource_cost (st : FlowControlByteCapacity.State) (cfg : Config)
    (msg : StellarMessage) (h0 : st.mRemoteOverlayVersion ≠ 0) :
    FlowControlByteCapacity.getMsgResourceCount st cfg msg
      = some (FlowControlCapacity.msgBodySize msg st.mRemoteOverlayVersion
          cfg.OVERLAY_PROTOCOL_VERSION) ∧
    (FIRST_VERSION_UPDATED_FLOW_CONTROL_ACCOUNTING ≤ st.mRemoteOverlayVersion ∧
        FIRST_VERSION_UPDATED_FLOW_CONTROL_ACCOUNTING ≤
          cfg.OVERLAY_PROTOCOL_VERSION →
      FlowControlCapacity.msgBodySize msg st.mRemoteOverlayVersion
          cfg.OVERLAY_PROTOCOL_VERSION = msg.xdrFullSize - msg.xdrTypeSize) ∧
    (st.mRemoteOverlayVersion < FIRST_VERSION_UPDATED_FLOW_CONTROL_ACCOUNTING ∨
        cfg.OVERLAY_PROTOCOL_VERSION <
          FIRST_VERSION_UPDATED_FLOW_CONTROL_ACCOUNTING →
      FlowControlCapacity.msgBodySize msg st.mRemoteOverlayVersion
          cfg.OVERLAY_PROTOCOL_VERSION = msg.xdrFullSize) := by
  refine ⟨by simp [FlowControlByteCapacity.getMsgResourceCount, h0], ?_, ?_⟩
  · intro hv
    simp only [FlowControlCapacity.msgBodySize]
    rw [if_pos hv]
  · intro hv
    simp only [FlowControlCapacity.msgBodySize]
    rw [if_neg (by omega)]

/-- C4 (witness): a 104-byte message with a 4-byte discriminator costs 100 at
versions 28/28 and 104 when the remote version is 27. -/
theorem c4_witness :
    FlowControlByteCapacity.getMsgResourceCount
        (FlowControlByteCapacity.init 300000 28) cfg5_10 byteMsg104
      = some 100 ∧
    FlowControlCapacity.msgBodySize byteMsg104 27 28 = 104 :=
  ⟨(c4_byte_resource_cost (FlowControlByteCapacity.init 300000 28) cfg5_10
      byteMsg104 (by decide)).1.trans (by decide),
   (c4_byte_resource_cost (FlowControlByteCapacity.init 300000 27) cfg5_10
      byteMsg104 (by decide)).2.2 (Or.inl (by decide))⟩

/-- C5: byte-based `canRead` returns `true` whenever its fatal assert (total
capacity absent) passes and aborts otherwise; count-based `canRead` fatally
asserts total capacity is present and returns `true` iff it is strictly
positive, `false` when it is exactly 0. -/
theorem c5_can_read :
    (∀ cap : ReadingCapacity, cap.mTotalCapacity = none →
      FlowControlByteCapacity.canRead cap = some true) ∧
    (∀ (cap : ReadingCapacity) (t : Nat), cap.mTotalCapacity = some t →
      FlowControlByteCapacity.canRead cap = none) ∧
    (∀ (cap : ReadingCapacity) (t : Nat), cap.mTotalCapacity = some t →
      (FlowControlMessageCapacity.canRead cap = some true ↔ 0 < t)) ∧
    (∀ cap : ReadingCapacity, cap.mTotalCapacity = some 0 →
      FlowControlMessageCapacity.canRead cap = some false) ∧
    (∀ cap : ReadingCapacity, cap.mTotalCapacity = none →
      FlowControlMessageCapacity.canRead cap = none) := by
  refine ⟨?_, ?_, ?_, ?_, ?_⟩ <;> intro cap
  · intro h
    simp [FlowControlByteCapacity.canRead, h]
  · intro t h
    simp [FlowControlByteCapacity.canRead, h]
  · intro t h
    simp [FlowControlMessageCapacity.canRead, h]
  · intro h
    simp [FlowControlMessageCapacity.canRead, h]
  · intro h
    simp [FlowControlMessageCapacity.canRead, h]

/-- C5 (witness): `canRead` evaluated on a byte ledger capacity and on a
drained count ledger capacity. -/
theorem c5_witness :
    FlowControlByteCapacity.canRead ⟨7, none⟩ = some true ∧
    FlowControlMessageCapacity.canRead ⟨0, some 0⟩ = some false :=
  ⟨c5_can_read.1 ⟨7, none⟩ rfl, c5_can_read.2.2.2.1 ⟨0, some 0⟩ rfl⟩

/-- C9: on a byte-based ledger whose recorded remote overlay version is 0,
the resource-cost computation and every operation that invokes it
(`lockLocalCapacity`, `releaseLocalCapacity`, `hasOutboundCapacity`, and
`lockOutboundCapacity` on a flood message) hit the fatal
`releaseAssert(mRemoteOverlayVersion)`. -/
theorem c9_zero_remote_version_fatal (st : FlowControlByteCapacity.State)
    (cfg : Config) (msg : StellarMessage)
    (h0 : st.mRemoteOverlayVersion = 0) :
    FlowControlByteCapacity.getMsgResourceCount st cfg msg = none ∧
    FlowControlByteCapacity.lockLocalCapacity st cfg msg = none ∧
    FlowControlByteCapacity.releaseLocalCapacity st cfg msg = none ∧
    FlowControlByteCapacity.hasOutboundCapacity st cfg msg = none ∧
    (msg.isFlood = true →
      FlowControlByteCapacity.lockOutboundCapacity st cfg msg = none) := by
  refine ⟨?_, ?_, ?_, ?_, ?_⟩
  · simp [FlowControlByteCapacity.getMsgResourceCount, h0]
  · simp [FlowControlByteCapacity.lockLocalCapacity,
      FlowControlByteCapacity.getMsgResourceCount, h0,
      FlowControlCapacity.lockLocalCapacity]
  · simp [FlowControlByteCapacity.releaseLocalCapacity,
      FlowControlByteCapacity.getMsgResourceCount, h0,
      FlowControlCapacity.releaseLocalCapacity]
  · simp [FlowControlByteCapacity.hasOutboundCapacity,
      FlowControlByteCapacity.getMsgResourceCount, h0,
      FlowControlCapacity.hasOutboundCapacity]
  · intro hmf
    simp [FlowControlByteCapacity.lockOutboundCapacity,
      FlowControlByteCapacity.getMsgResourceCount, h0, hmf,
      FlowControlCapacity.lockOutboundCapacity]

/-- C9 (witness): the fatal outcomes at a concrete version-0 byte ledger. -/
theorem c9_witness :
    FlowControlByteCapacity.getMsgResourceCount
        (FlowControlByteCapacity.init 100 0) cfg5_10 floodMsg = none ∧
    FlowControlByteCapacity.lockOutboundCapacity
        (FlowControlByteCapacity.init 100 0) cfg5_10 floodMsg = none :=
  ⟨(c9_zero_remote_version_fatal (FlowControlByteCapacity.init 100 0) cfg5_10
      floodMsg rfl).1,
   (c9_zero_remote_version_fatal (FlowControlByteCapacity.init 100 0) cfg5_10
      floodMsg rfl).2.2.2.2 rfl⟩

/-- A byte-ledger state whose flood ceiling sits at the top of the `uint64_t`
range; its live flood capacity (2) is within the ceiling. -/
def c6state : FlowControlByteCapacity.State := ⟨⟨2, none⟩, 0, ⟨W - 1, none⟩, 28⟩

/-- C6 (counterexample): in a state whose flood ceiling is `2^64 - 1` and
whose live flood capacity is 2 (so ceiling >= live), `handleTxSizeIncrease 1`
wraps the ceiling to 0 while the live capacity becomes 3: the ceiling is not
increased by exactly 1 and the ceiling >= live invariant is broken. -/
theorem c6_counterexample :
    c6state.mCapacity.mFloodCapacity ≤ c6state.mCapacityLimits.mFloodCapacity ∧
    (FlowControlByteCapacity.handleTxSizeIncrease c6state 1).mCapacity.mFloodCapacity
      = 3 ∧
    (FlowControlByteCapacity.handleTxSizeIncrease c6state 1).mCapacityLimits.mFloodCapacity
      = 0 ∧
    ¬ ((FlowControlByteCapacity.handleTxSizeIncrease c6state 1).mCapacityLimits.mFloodCapacity
        = c6state.mCapacityLimits.mFloodCapacity + 1) ∧
    ¬ ((FlowControlByteCapacity.handleTxSizeIncrease c6state 1).mCapacity.mFloodCapacity
        ≤ (FlowControlByteCapacity.handleTxSizeIncrease c6state 1).mCapacityLimits.mFloodCapacity) := by
  refine ⟨by decide, by decide, by decide, by decide, by decide⟩

/-- C6 (amended): when the flood ceiling plus the delta still fits in
`uint64_t` (no wraparound), `handleTxSizeIncrease d` increases the live flood
capacity and the flood ceiling by exactly `d`, leaves total capacity absent,
and preserves ceiling >= live. -/
theorem c6_handle_tx_size_increase (st : FlowControlByteCapacity.State) (d : Nat)
    (hinv : st.mCapacity.mFloodCapacity ≤ st.mCapacityLimits.mFloodCapacity)
    (hW : st.mCapacityLimits.mFloodCapacity + d < W)
    (htot : st.mCapacity.mTotalCapacity = none) :
    (FlowControlByteCapacity.handleTxSizeIncrease st d).mCapacity.mFloodCapacity
      = st.mCapacity.mFloodCapacity + d ∧
    (FlowControlByteCapacity.handleTxSizeIncrease st d).mCapacityLimits.mFloodCapacity
      = st.mCapacityLimits.mFloodCapacity + d ∧
    (FlowControlByteCapacity.handleTxSizeIncrease st d).mCapacity.mTotalCapacity
      = none ∧
    (FlowControlByteCapacity.handleTxSizeIncrease st d).mCapacity.mFloodCapacity
      ≤ (FlowControlByteCapacity.handleTxSizeIncrease st d).mCapacityLimits.mFloodCapacity := by
  have h1 : st.mCapacity.mFloodCapacity + d < W := by omega
  refine ⟨?_, ?_, ?_, ?_⟩ <;>
    simp [FlowControlByteCapacity.handleTxSizeIncrease, Nat.mod_eq_of_lt h1,
      Nat.mod_eq_of_lt hW, htot]
  omega

/-- C6 (witness): the increase applied to a fresh byte ledger with flood
ceiling 10 and delta 5. -/
theorem c6_witness :
    (FlowControlByteCapacity.handleTxSizeIncrease
        (FlowControlByteCapacity.init 10 28) 5).mCapacity.mFloodCapacity
      = (FlowControlByteCapacity.init 10 28).mCapacity.mFloodCapacity + 5 ∧
    (FlowControlByteCapacity.handleTxSizeIncrease
        (FlowControlByteCapacity.init 10 28) 5).mCapacityLimits.mFloodCapacity
      = (FlowControlByteCapacity.init 10 28).mCapacityLimits.mFloodCapacity + 5 ∧
    (FlowControlByteCapacity.handleTxSizeIncrease
        (FlowControlByteCapacity.init 10 28) 5).mCapacity.mTotalCapacity = none ∧
    (FlowControlByteCapacity.handleTxSizeIncrease
        (FlowControlByteCapacity.init 10 28) 5).mCapacity.mFloodCapacity
      ≤ (FlowControlByteCapacity.handleTxSizeIncrease
          (FlowControlByteCapacity.init 10 28) 5).mCapacityLimits.mFloodCapacity :=
  c6_handle_tx_size_increase (FlowControlByteCapacity.init 10 28) 5
    (by decide) (by decide) rfl

/-- C7: whenever `releaseLocalCapacity` completes (its trailing invariant
re-check does not abort), it returns the message cost for a flood message and
0 for a non-flood message, adds the cost back to `flood_capacity` exactly for
flood messages, and adds it back to a present `total_capacity` for every
message. The `< W` hypotheses rule out `uint64_t` wraparound of the two
additions. -/
theorem c7_release_local (limits cap cap2 : ReadingCapacity) (c r : Nat)
    (f : Bool) (hfW : cap.mFloodCapacity + c < W)
    (htW : ∀ t, cap.mTotalCapacity = some t → t + c < W)
    (h : FlowControlCapacity.releaseLocalCapacity limits (some c) f cap
      = some (cap2, r)) :
    r = (if f then c else 0) ∧
    cap2.mFloodCapacity = cap.mFloodCapacity + (if f then c else 0) ∧
    cap2.mTotalCapacity = cap.mTotalCapacity.map (fun t => t + c) := by
  obtain ⟨fc, tc?⟩ := cap
  simp only at hfW
  cases tc? with
  | none =>
    cases f with
    | false =>
      simp only [FlowControlCapacity.releaseLocalCapacity, Bool.false_eq_true,
        if_false] at h
      split at h
      case isTrue =>
        simp only [Option.some.injEq, Prod.mk.injEq] at h
        obtain ⟨h2, h3⟩ := h
        subst h2
        subst h3
        simp
      case isFalse => simp at h
    | true =>
      simp only [FlowControlCapacity.releaseLocalCapacity, if_true,
        Nat.mod_eq_of_lt hfW] at h
      split at h
      case isTrue =>
        simp only [Option.some.injEq, Prod.mk.injEq] at h
        obtain ⟨h2, h3⟩ := h
        subst h2
        subst h3
        simp
      case isFalse => simp at h
  | some t =>
    have htW2 : t + c < W := htW t rfl
    cases f with
    | false =>
      simp only [FlowControlCapacity.releaseLocalCapacity, Bool.false_eq_true,
        if_false, Nat.mod_eq_of_lt htW2] at h
      split at h
      case isTrue =>
        simp only [Option.some.injEq, Prod.mk.injEq] at h
        obtain ⟨h2, h3⟩ := h
        subst h2
        subst h3
        simp
      case isFalse => simp at h
    | true =>
      simp only [FlowControlCapacity.releaseLocalCapacity, if_true,
        Nat.mod_eq_of_lt hfW, Nat.mod_eq_of_lt htW2] at h
      split at h
      case isTrue =>
        simp only [Option.some.injEq, Prod.mk.injEq] at h
        obtain ⟨h2, h3⟩ := h
        subst h2
        subst h3
        simp
      case isFalse => simp at h

/-- C7 (witness): releasing a flood message of byte cost 250 with
`flood_capacity = 0` (flood ceiling 1000, no total capacity) returns 250 and
sets `flood_capacity` to 250. -/
theorem c7_witness :
    (250 : Nat) = (if true then 250 else 0) ∧
    (⟨250, none⟩ : ReadingCapacity).mFloodCapacity
      = (⟨0, none⟩ : ReadingCapacity).mFloodCapacity +
          (if true then 250 else 0) ∧
    (⟨250, none⟩ : ReadingCapacity).mTotalCapacity
      = (⟨0, none⟩ : ReadingCapacity).mTotalCapacity.map (fun t => t + 250) :=
  c7_release_local ⟨1000, none⟩ ⟨0, none⟩ ⟨250, none⟩ 250 250 true
    (by decide) (by intro t ht; simp at ht) (by decide)

/-- A fresh byte ledger (flood byte ceiling 300000, remote version 28):
outbound counter 0. -/
def byteLedger0 : FlowControlByteCapacity.State :=
  FlowControlByteCapacity.init 300000 28

/-- The same ledger after a 1000-byte credit grant. -/
def byteLedger1000 : FlowControlByteCapacity.State :=
  { byteLedger0 with mOutboundCapacity := 1000 }

/-- A `SEND_MORE_EXTENDED` credit-grant message carrying `numBytes = 1000`
(itself a non-flood message of serialized size 20 with a 4-byte
discriminator). -/
def creditMsg1000 : StellarMessage :=
  ⟨false, MessageType.SEND_MORE_EXTENDED, 0, 1000, 20, 4⟩

/-- A flood message of byte cost 900 at versions 28/28 (serialized size 904,
4-byte discriminator). -/
def floodMsg900 : StellarMessage := ⟨true, MessageType.OTHER, 0, 0, 904, 4⟩

/-- C8: on a byte ledger with outbound counter 0, a credit grant of 1000
bytes raises the counter to 1000; `hasOutboundCapacity` then holds for a
900-byte flood message; locking it leaves the counter at 100; and
`lockOutboundCapacity` is a no-op for every non-flood message in every
state. -/
theorem c8_outbound_credit_scenario :
    FlowControlByteCapacity.releaseOutboundCapacity byteLedger0 cfg5_10
        creditMsg1000
      = some byteLedger1000 ∧
    FlowControlByteCapacity.hasOutboundCapacity byteLedger1000 cfg5_10
        floodMsg900
      = some true ∧
    FlowControlByteCapacity.lockOutboundCapacity byteLedger1000 cfg5_10
        floodMsg900
      = some { byteLedger1000 with mOutboundCapacity := 100 } ∧
    (∀ (st : FlowControlByteCapacity.State) (cfg : Config)
        (msg : StellarMessage), msg.isFlood = false →
      FlowControlByteCapacity.lockOutboundCapacity st cfg msg = some st) := by
  refine ⟨by decide, by decide, by decide, ?_⟩
  intro st cfg msg hmf
  simp [FlowControlByteCapacity.lockOutboundCapacity,
    FlowControlCapacity.lockOutboundCapacity, hmf]

/-- C8 (witness): the non-flood no-op applied to the credit-grant message
itself on the granted ledger. -/
theorem c8_witness :
    FlowControlByteCapacity.lockOutboundCapacity byteLedger1000 cfg5_10
        creditMsg1000
      = some byteLedger1000 :=
  c8_outbound_credit_scenario.2.2.2 byteLedger1000 cfg5_10 creditMsg1000 rfl

/-- C10: both strategies' `releaseOutboundCapacity` add the decoded grant to
the outbound counter with `uint64_t` wraparound semantics (addition modulo
`2^64`) and check the counter against no upper limit: the new counter value is
exactly `(old + grant) % 2^64` whenever the message-kind assert (and, for the
byte strategy, the nonzero-remote-version assert) passes. -/
theorem c10_outbound_counter_wraps :
    (∀ (msg : StellarMessage) (out : Nat),
      msg.msgType = MessageType.SEND_MORE ∨
        msg.msgType = MessageType.SEND_MORE_EXTENDED →
      FlowControlMessageCapacity.releaseOutboundCapacity msg out
        = some ((out + msg.numMessages) % W)) ∧
    (∀ (st : FlowControlByteCapacity.State) (cfg : Config)
        (msg : StellarMessage),
      msg.msgType = MessageType.SEND_MORE_EXTENDED →
      st.mRemoteOverlayVersion ≠ 0 →
      FlowControlByteCapacity.releaseOutboundCapacity st cfg msg
        = some { st with
            mOutboundCapacity := (st.mOutboundCapacity + msg.numBytes) % W }) := by
  constructor
  · intro msg out ht
    simp only [FlowControlMessageCapacity.releaseOutboundCapacity]
    rw [if_pos ht]
  · intro st cfg msg ht h0
    simp [FlowControlByteCapacity.releaseOutboundCapacity, ht,
      FlowControlByteCapacity.hasOutboundCapacity,
      FlowControlByteCapacity.getMsgResourceCount, h0,
      FlowControlCapacity.hasOutboundCapacity]

/-- A byte ledger whose outbound counter sits at `2^64 - 1`. -/
def wrapLedger : FlowControlByteCapacity.State := ⟨⟨0, none⟩, W - 1, ⟨0, none⟩, 28⟩

/-- A credit grant of 2 bytes. -/
def wrapMsg : StellarMessage := ⟨false, MessageType.SEND_MORE_EXTENDED, 0, 2, 20, 4⟩

/-- C10 (witness): granting 2 bytes to a counter at `2^64 - 1` wraps it to 1
rather than saturating or faulting. -/
theorem c10_witness :
    FlowControlByteCapacity.releaseOutboundCapacity wrapLedger cfg5_10 wrapMsg
      = some { wrapLedger with
          mOutboundCapacity := (wrapLedger.mOutboundCapacity + wrapMsg.numBytes) % W } ∧
    (wrapLedger.mOutboundCapacity + wrapMsg.numBytes) % W = 1 :=
  ⟨c10_outbound_counter_wraps.2 wrapLedger cfg5_10 wrapMsg rfl (by decide),
   by decide⟩

end StellarOverlay
